import Mathlib

/-!
Shallow embedding of the authentication subsystem of the contact-management
API (goit-pythonweb-hw-012): password hashing context, JWT issue/verify,
the auth route handlers (`src/api/auth.py`), and the user-store operations
they call. External collaborators (bcrypt via passlib, Gravatar, the SMTP
transport) are modelled as parameters or symbolic values; the JWT library
(python-jose) is modelled symbolically: a signed token records the claims,
the signing secret and the algorithm, and decoding checks secret, algorithm
and expiry. `src/repository/users.py` is not present in the source tree, so
the user-store mutations it implements are modelled from the specification
(each such definition is marked `Modelled from the spec:`).
-/

/-- UserRole from src/database/models.py: values USER and ADMIN. -/
inductive UserRole where
  | USER
  | ADMIN
deriving DecidableEq, Repr

/-- A row of the users table, from the User model in src/database/models.py:
id, username, email, hashed_password, avatar (nullable), confirmed
(default false), role (default USER). The created_at column plays no role
in any claim and is omitted. -/
structure UserRec where
  id : Nat
  username : String
  email : String
  hashed_password : String
  avatar : Option String
  confirmed : Bool
  role : UserRole
deriving DecidableEq, Repr

/-- The persisted user store: the rows of the users table. -/
abbrev DB := List UserRec

/-- UserRepository.get_user_by_email as used through UserService
(src/services/users.py): the user whose email column matches, if any. -/
def get_user_by_email (db : DB) (email : String) : Option UserRec :=
  db.find? (fun u => u.email == email)

/-- UserRepository.get_user_by_username as used through UserService
(src/services/users.py): the user whose username column matches, if any. -/
def get_user_by_username (db : DB) (username : String) : Option UserRec :=
  db.find? (fun u => u.username == username)

/-- The claim payloads this codebase puts in JWTs: sub and password are
string claims, iat and exp are unix timestamps. A field is none when the
corresponding key is absent from the payload dict. -/
structure Claims where
  sub : Option String
  password : Option String
  iat : Option Nat
  exp : Option Nat
deriving DecidableEq, Repr

/-- A token string, modelled symbolically: jose's jwt.encode yields a signed
bundle recording the claims, the signing secret and the algorithm; any other
string is structurally malformed. -/
inductive TokenStr where
  | signed (claims : Claims) (secret : String) (alg : String)
  | malformed (raw : String)
deriving DecidableEq, Repr

/-- The failure modes of jose's jwt.decode (all subclasses of JWTError). -/
inductive JWTError where
  | invalidSignature
  | expired
  | malformedToken
deriving DecidableEq, Repr

/-- jose jwt.encode(payload, secret, algorithm). -/
def jwtEncode (claims : Claims) (secret : String) (alg : String) : TokenStr :=
  TokenStr.signed claims secret alg

/-- jose jwt.decode(token, secret, algorithms=[alg]) evaluated at time now:
fails on a structurally malformed token, on a secret or algorithm mismatch,
and (jose's default exp validation) when the exp claim has passed; otherwise
returns the claims payload. -/
def jwtDecode (token : TokenStr) (secret : String) (alg : String) (now : Nat) :
    Except JWTError Claims :=
  match token with
  | TokenStr.malformed _ => Except.error JWTError.malformedToken
  | TokenStr.signed claims s a =>
    if s = secret ∧ a = alg then
      match claims.exp with
      | some e => if e < now then Except.error JWTError.expired else Except.ok claims
      | none => Except.ok claims
    else Except.error JWTError.invalidSignature

/-- The token-relevant fields of Settings (src/conf/config.py), with the
declared defaults for algorithm and expiration. -/
structure Settings where
  JWT_SECRET : String
  JWT_ALGORITHM : String
  JWT_EXPIRATION_SECONDS : Nat
deriving DecidableEq, Repr

/-- Ambient context of a request: the loaded settings, the current time, and
the external collaborators — bcrypt hashing and verification from passlib
(Hash in src/services/auth.py) and the Gravatar lookup used by
UserService.create_user. -/
structure Ctx where
  settings : Settings
  now : Nat
  hashFn : String → String
  verifyFn : String → String → Bool
  gravatar : String → Option String

/-- Errors a handler can surface: an HTTPException with a status code and a
detail message, or an uncaught Python KeyError from a missing dict key. -/
inductive PyErr where
  | http (status : Nat) (detail : String)
  | keyError (key : String)
deriving DecidableEq, Repr

/-- create_access_token from src/services/auth.py: copies the payload, sets
exp to now plus the explicit expires_delta when that is given and truthy
(a passed 0 is falsy in Python and falls back to the default), or now plus
settings.JWT_EXPIRATION_SECONDS otherwise, and signs with the configured
secret and algorithm. No iat claim is added. -/
def create_access_token (ctx : Ctx) (data : Claims) (expires_delta : Option Nat) :
    TokenStr :=
  let expire :=
    match expires_delta with
    | some d => if d = 0 then ctx.now + ctx.settings.JWT_EXPIRATION_SECONDS
                else ctx.now + d
    | none => ctx.now + ctx.settings.JWT_EXPIRATION_SECONDS
  jwtEncode { data with exp := some expire } ctx.settings.JWT_SECRET
    ctx.settings.JWT_ALGORITHM

/-- create_email_token from src/services/auth.py: copies the payload, sets
iat to now and exp to now plus 7 days, and signs with the configured secret
and algorithm. -/
def create_email_token (ctx : Ctx) (data : Claims) : TokenStr :=
  jwtEncode { data with iat := some ctx.now, exp := some (ctx.now + 7 * 24 * 60 * 60) }
    ctx.settings.JWT_SECRET ctx.settings.JWT_ALGORITHM

/-- get_email_from_token from src/services/auth.py: decodes the token; a
JWTError is caught and re-raised as HTTPException 422 "Invalid token for
email verification"; the subsequent dict access payload["sub"] is inside the
try block but a KeyError it raises is not a JWTError, so a payload without a
sub key escapes as an uncaught KeyError. -/
def get_email_from_token (ctx : Ctx) (token : TokenStr) : Except PyErr String :=
  match jwtDecode token ctx.settings.JWT_SECRET ctx.settings.JWT_ALGORITHM ctx.now with
  | Except.error _ =>
      Except.error (PyErr.http 422 "Invalid token for email verification")
  | Except.ok payload =>
    match payload.sub with
    | some email => Except.ok email
    | none => Except.error (PyErr.keyError "sub")

/-- get_password_from_token from src/services/auth.py: decodes the token; a
JWTError is caught and re-raised as HTTPException 422 "Wrong token"; the
dict access payload["password"] raises an uncaught KeyError when the claim
is absent. -/
def get_password_from_token (ctx : Ctx) (token : TokenStr) : Except PyErr String :=
  match jwtDecode token ctx.settings.JWT_SECRET ctx.settings.JWT_ALGORITHM ctx.now with
  | Except.error _ => Except.error (PyErr.http 422 "Wrong token")
  | Except.ok payload =>
    match payload.password with
    | some password => Except.ok password
    | none => Except.error (PyErr.keyError "password")

/-- get_current_user from src/services/auth.py: decodes the bearer token
(JWTError becomes HTTPException 401 "Could not validate credentials"), reads
payload["sub"] (a missing key escapes as a KeyError), and resolves the
username against the user store, failing with the same 401 when no user
matches. -/
def get_current_user (ctx : Ctx) (db : DB) (token : TokenStr) : Except PyErr UserRec :=
  match jwtDecode token ctx.settings.JWT_SECRET ctx.settings.JWT_ALGORITHM ctx.now with
  | Except.error _ =>
      Except.error (PyErr.http 401 "Could not validate credentials")
  | Except.ok payload =>
    match payload.sub with
    | none => Except.error (PyErr.keyError "sub")
    | some username =>
      match get_user_by_username db username with
      | none => Except.error (PyErr.http 401 "Could not validate credentials")
      | some u => Except.ok u

/-- get_current_admin_user from src/services/auth.py: 403 "Permission
denied" unless the resolved user's role is ADMIN. -/
def get_current_admin_user (user : UserRec) : Except PyErr UserRec :=
  if user.role ≠ UserRole.ADMIN then Except.error (PyErr.http 403 "Permission denied")
  else Except.ok user

/-- UserCreate from src/schemas.py: the registration request body. The role
field has no default, so every registration request must supply one. -/
structure UserCreate where
  username : String
  email : String
  password : String
  role : UserRole
deriving DecidableEq, Repr

/-- The login response body (Token schema in src/schemas.py). -/
structure TokenResponse where
  access_token : TokenStr
  token_type : String
deriving DecidableEq, Repr

/-- A background mail task queued by a handler: send_confirm_email builds its
own confirmation token inside the task, while send_reset_password_email is
handed the already-built reset token. -/
inductive MailTask where
  | confirmMail (toEmail : String) (username : String)
  | resetMail (toEmail : String) (username : String) (reset_token : TokenStr)
deriving DecidableEq, Repr

/-- Modelled from the spec: src/repository/users.py is absent from the
source tree. Per section 6 the user store exposes insert(user); per section
4.4 the record is created from the caller-supplied registration data (whose
password field holds the already-computed hash when create_user is reached)
with confirmed = false; UserService.create_user (src/services/users.py)
supplies the Gravatar avatar. The store assigns the next integer id. -/
def UserRepository.create_user (db : DB) (body : UserCreate) (avatar : Option String) :
    UserRec × DB :=
  let u : UserRec :=
    { id := db.length + 1
      username := body.username
      email := body.email
      hashed_password := body.password
      avatar := avatar
      confirmed := false
      role := body.role }
  (u, db ++ [u])

/-- Modelled from the spec: src/repository/users.py is absent from the
source tree. Per section 6 the user store exposes set_confirmed(email),
which sets the confirmed flag of the user with that email to true. -/
def UserRepository.set_confirmed (db : DB) (email : String) : DB :=
  db.map (fun u => if u.email == email then { u with confirmed := true } else u)

/-- Modelled from the spec: src/repository/users.py is absent from the
source tree. Per section 6 the user store exposes set_password_hash(id,
hash), which replaces the stored password hash of the user with that id. -/
def UserRepository.set_password_hash (db : DB) (user_id : Nat) (hashed : String) : DB :=
  db.map (fun u => if u.id == user_id then { u with hashed_password := hashed } else u)

/-- register_user, POST /auth/register (src/api/auth.py): 409 when a user
with the email exists, then 409 when a user with the username exists;
otherwise the request's password field is overwritten with its hash, the
record is created, and a confirmation mail task is queued. Returns the
response, the resulting store, and the queued mail tasks. -/
def register_user (ctx : Ctx) (db : DB) (user_data : UserCreate) :
    Except PyErr UserRec × DB × List MailTask :=
  match get_user_by_email db user_data.email with
  | some _ =>
      (Except.error (PyErr.http 409 "A user with this email already exists"), db, [])
  | none =>
    match get_user_by_username db user_data.username with
    | some _ =>
        (Except.error (PyErr.http 409 "A user with this username already exists"),
          db, [])
    | none =>
      let body := { user_data with password := ctx.hashFn user_data.password }
      let res := UserRepository.create_user db body (ctx.gravatar body.email)
      (Except.ok res.1, res.2, [MailTask.confirmMail res.1.email res.1.username])

/-- login_user, POST /auth/login (src/api/auth.py): 401 "Incorrect login or
password" when the username resolves to no user or bcrypt verification of
the form password against the stored hash fails; 401 "Email not confirmed"
when the account is unconfirmed; otherwise an access token with payload
sub = username, issued by create_access_token with no explicit
expires_delta. -/
def login_user (ctx : Ctx) (db : DB) (username : String) (password : String) :
    Except PyErr TokenResponse :=
  match get_user_by_username db username with
  | none => Except.error (PyErr.http 401 "Incorrect login or password")
  | some user =>
    if ctx.verifyFn password user.hashed_password = false then
      Except.error (PyErr.http 401 "Incorrect login or password")
    else if user.confirmed = false then
      Except.error (PyErr.http 401 "Email not confirmed")
    else
      Except.ok
        { access_token :=
            create_access_token ctx
              { sub := some user.username, password := none, iat := none, exp := none }
              none
          token_type := "bearer" }

/-- confirmed_email, GET /auth/confirmed_email/{token} (src/api/auth.py):
get_email_from_token yields the email (its failures propagate); 400
"Confirmation error" when no user matches; a no-op success message when the
user is already confirmed; otherwise the confirmed flag is set. -/
def confirmed_email (ctx : Ctx) (db : DB) (token : TokenStr) :
    Except PyErr String × DB :=
  match get_email_from_token ctx token with
  | Except.error e => (Except.error e, db)
  | Except.ok email =>
    match get_user_by_email db email with
    | none => (Except.error (PyErr.http 400 "Confirmation error"), db)
    | some user =>
      if user.confirmed then (Except.ok "Your email is already confirmed", db)
      else (Except.ok "Email confirmed", UserRepository.set_confirmed db email)

/-- request_email, POST /auth/request_email (src/api/auth.py): a user that
exists and is confirmed gets "Your email is already confirmed"; an existing
unconfirmed user gets a queued confirmation mail; in both remaining cases
the response is the generic "Check your email for confirmation". -/
def request_email (ctx : Ctx) (db : DB) (email : String) :
    Except PyErr String × DB × List MailTask :=
  match get_user_by_email db email with
  | some user =>
    if user.confirmed then (Except.ok "Your email is already confirmed", db, [])
    else
      (Except.ok "Check your email for confirmation", db,
        [MailTask.confirmMail user.email user.username])
  | none => (Except.ok "Check your email for confirmation", db, [])

/-- reset_password_request, POST /auth/reset_password (src/api/auth.py): a
missing user gets the generic success message; an unconfirmed user gets 400
"Your email is not confirmed"; otherwise the new password is hashed, a reset
token with payload sub = email and password = hash is issued by
create_access_token with no explicit expires_delta, and a reset mail task
carrying it is queued. Nothing is written to the store. -/
def reset_password_request (ctx : Ctx) (db : DB) (email : String) (password : String) :
    Except PyErr String × DB × List MailTask :=
  match get_user_by_email db email with
  | none => (Except.ok "Check your email for confirmation", db, [])
  | some user =>
    if user.confirmed = false then
      (Except.error (PyErr.http 400 "Your email is not confirmed"), db, [])
    else
      let hashed_password := ctx.hashFn password
      let reset_token :=
        create_access_token ctx
          { sub := some user.email, password := some hashed_password, iat := none,
            exp := none }
          none
      (Except.ok "Check your email for confirmation", db,
        [MailTask.resetMail email user.username reset_token])

/-- confirm_reset_password, GET /auth/confirm_reset_password/{token}
(src/api/auth.py): get_email_from_token and get_password_from_token both run
first (their failures propagate); 400 "Invalid or expired token" when either
extracted string is falsy (empty); 404 when no user matches the email;
otherwise the carried hash is committed as the user's password hash. -/
def confirm_reset_password (ctx : Ctx) (db : DB) (token : TokenStr) :
    Except PyErr String × DB :=
  match get_email_from_token ctx token with
  | Except.error e => (Except.error e, db)
  | Except.ok email =>
    match get_password_from_token ctx token with
    | Except.error e => (Except.error e, db)
    | Except.ok hashed_password =>
      if email = "" ∨ hashed_password = "" then
        (Except.error (PyErr.http 400 "Invalid or expired token"), db)
      else
        match get_user_by_email db email with
        | none => (Except.error (PyErr.http 404 "User with this email not found"), db)
        | some user =>
          (Except.ok "Password successfully changed",
            UserRepository.set_password_hash db user.id hashed_password)

/-- Concrete settings used by witnesses and counterexamples: the declared
defaults of src/conf/config.py for algorithm and expiration. -/
def settingsW : Settings :=
  { JWT_SECRET := "secret", JWT_ALGORITHM := "HS256", JWT_EXPIRATION_SECONDS := 3600 }

/-- Concrete request context for witnesses: a toy invertible stand-in for
the external bcrypt pair, a Gravatar stub, and the clock at 1000. -/
def ctxW : Ctx :=
  { settings := settingsW
    now := 1000
    hashFn := fun p => String.append "h:" p
    verifyFn := fun p hp => hp == String.append "h:" p
    gravatar := fun _ => none }

/-- A confirmed user row used by witnesses. -/
def aliceW : UserRec :=
  { id := 1, username := "alice", email := "alice@x.com"
    hashed_password := "h:pw1234", avatar := none, confirmed := true
    role := UserRole.USER }

/-- A one-row store holding the confirmed user. -/
def dbW : DB := [aliceW]

/-- An unconfirmed user row used by witnesses. -/
def bobW : UserRec :=
  { id := 2, username := "bob", email := "bob@x.com"
    hashed_password := "h:pw5678", avatar := none, confirmed := false
    role := UserRole.USER }

/-- A store holding the confirmed user and the unconfirmed user. -/
def dbW2 : DB := [aliceW, bobW]

/-- Any match of get_user_by_username has the queried username. -/
theorem get_user_by_username_eq {db : DB} {uname : String} {u : UserRec}
    (h : get_user_by_username db uname = some u) : u.username = uname := by
  have hp := List.find?_some h
  simpa using hp

/-- Any match of get_user_by_email has the queried email. -/
theorem get_user_by_email_eq {db : DB} {email : String} {u : UserRec}
    (h : get_user_by_email db email = some u) : u.email = email := by
  have hp := List.find?_some h
  simpa using hp

/-- C1: a login whose username resolves to no user, or whose password fails
bcrypt verification against the stored hash, fails with 401 "Incorrect login
or password"; a login whose credentials verify but whose account is
unconfirmed fails with 401 "Email not confirmed" (distinct message, same
status); otherwise the response carries an access token signed with the
configured secret and algorithm whose sub claim is the username and whose
expiry is now plus the default access-token ttl
(settings.JWT_EXPIRATION_SECONDS). -/
theorem login_correctness (ctx : Ctx) (db : DB) (uname pwd : String) :
    ((∀ u, get_user_by_username db uname = some u →
        ctx.verifyFn pwd u.hashed_password = false) →
      login_user ctx db uname pwd =
        Except.error (PyErr.http 401 "Incorrect login or password"))
    ∧ (∀ u, get_user_by_username db uname = some u →
        ctx.verifyFn pwd u.hashed_password = true → u.confirmed = false →
        login_user ctx db uname pwd =
          Except.error (PyErr.http 401 "Email not confirmed"))
    ∧ (∀ u, get_user_by_username db uname = some u →
        ctx.verifyFn pwd u.hashed_password = true → u.confirmed = true →
        login_user ctx db uname pwd =
          Except.ok
            { access_token :=
                TokenStr.signed
                  { sub := some uname, password := none, iat := none
                    exp := some (ctx.now + ctx.settings.JWT_EXPIRATION_SECONDS) }
                  ctx.settings.JWT_SECRET ctx.settings.JWT_ALGORITHM
              token_type := "bearer" }) := by
  refine ⟨?_, ?_, ?_⟩
  · intro h
    unfold login_user
    cases hu : get_user_by_username db uname with
    | none => rfl
    | some u => simp [h u hu]
  · intro u hu hv hc
    unfold login_user
    rw [hu]
    simp [hv, hc]
  · intro u hu hv hc
    have he := get_user_by_username_eq hu
    unfold login_user
    rw [hu]
    simp [hv, hc, create_access_token, jwtEncode, he]

/-- Witness for C1: the confirmed user logs in with the correct password and
receives the expected access token. -/
theorem login_correctness_witness :
    login_user ctxW dbW "alice" "pw1234" =
      Except.ok
        { access_token :=
            TokenStr.signed
              { sub := some "alice", password := none, iat := none
                exp := some (ctxW.now + ctxW.settings.JWT_EXPIRATION_SECONDS) }
              ctxW.settings.JWT_SECRET ctxW.settings.JWT_ALGORITHM
          token_type := "bearer" } :=
  (login_correctness ctxW dbW "alice" "pw1234").2.2 aliceW (by decide)
    (by decide) (by decide)

/-- C2: registration fails with 409 when a user with the email exists, then
with 409 when a user with the username exists, each leaving the store
untouched; otherwise the created record stores the bcrypt hash of the
submitted password and confirmed = false, so the plaintext password is never
stored (the hash differs from the plaintext for any non-fixpoint of the hash
function, which a salted bcrypt digest always is). -/
theorem register_correctness (ctx : Ctx) (db : DB) (req : UserCreate) :
    ((∃ u, get_user_by_email db req.email = some u) →
      register_user ctx db req =
        (Except.error (PyErr.http 409 "A user with this email already exists"),
          db, []))
    ∧ (get_user_by_email db req.email = none →
      (∃ u, get_user_by_username db req.username = some u) →
      register_user ctx db req =
        (Except.error (PyErr.http 409 "A user with this username already exists"),
          db, []))
    ∧ (get_user_by_email db req.email = none →
      get_user_by_username db req.username = none →
      ∃ r, (register_user ctx db req).1 = Except.ok r ∧
        (register_user ctx db req).2.1 = db ++ [r] ∧
        r.hashed_password = ctx.hashFn req.password ∧
        r.confirmed = false ∧
        (ctx.hashFn req.password ≠ req.password → r.hashed_password ≠ req.password)) := by
  refine ⟨?_, ?_, ?_⟩
  · intro h
    obtain ⟨u, hu⟩ := h
    unfold register_user
    rw [hu]
  · intro h1 h2
    obtain ⟨u, hu⟩ := h2
    unfold register_user
    rw [h1, hu]
  · intro h1 h2
    unfold register_user
    rw [h1, h2]
    exact ⟨_, rfl, rfl, rfl, rfl, fun h => h⟩

/-- A registration request used by the C2 witness. -/
def reqW : UserCreate :=
  { username := "carol", email := "carol@x.com", password := "pw9999"
    role := UserRole.USER }

/-- Witness for C2: registering a fresh user against the empty store creates
a record carrying the hash, not the plaintext. -/
theorem register_correctness_witness :
    ∃ r, (register_user ctxW [] reqW).1 = Except.ok r ∧
      (register_user ctxW [] reqW).2.1 = [] ++ [r] ∧
      r.hashed_password = ctxW.hashFn reqW.password ∧
      r.confirmed = false ∧
      (ctxW.hashFn reqW.password ≠ reqW.password →
        r.hashed_password ≠ reqW.password) :=
  (register_correctness ctxW [] reqW).2.2 rfl rfl

/-- C10: register_user takes no authentication input (its arguments are only
the ambient context, the store and the request body, bearer-token handling
appearing nowhere in its signature), the UserCreate schema makes the role
field mandatory, and a conflict-free registration creates the account with
exactly the caller-supplied role — in particular role = ADMIN yields an
ADMIN account with no prior authentication or approval. -/
theorem register_role_unauthenticated (ctx : Ctx) (db : DB) (req : UserCreate) :
    get_user_by_email db req.email = none →
    get_user_by_username db req.username = none →
    ∃ r, (register_user ctx db req).1 = Except.ok r ∧ r.role = req.role ∧
      (req.role = UserRole.ADMIN → r.role = UserRole.ADMIN) := by
  intro h1 h2
  unfold register_user
  rw [h1, h2]
  exact ⟨_, rfl, rfl, fun h => h⟩

/-- A registration request claiming the ADMIN role, for the C10 witness. -/
def reqAdminW : UserCreate :=
  { username := "mallory", email := "mallory@x.com", password := "pw0000"
    role := UserRole.ADMIN }

/-- Witness for C10: an unauthenticated registration carrying role = ADMIN
creates an ADMIN account. -/
theorem register_role_unauthenticated_witness :
    ∃ r, (register_user ctxW [] reqAdminW).1 = Except.ok r ∧
      r.role = reqAdminW.role ∧
      (reqAdminW.role = UserRole.ADMIN → r.role = UserRole.ADMIN) :=
  register_role_unauthenticated ctxW [] reqAdminW rfl rfl

/-- C3 counterexample: with the declared default configuration
(JWT_EXPIRATION_SECONDS = 3600) and the clock at 1000, the reset token
queued for the confirmed user carries sub = the email and the new hash, but
its exp is 4600 — 3600 seconds after issuance — not the 604800 seconds
(7 days) the claim states, because reset_password_request issues it through
create_access_token with no explicit ttl rather than create_email_token. -/
theorem reset_token_ttl_counterexample :
    (reset_password_request ctxW dbW "alice@x.com" "newpw").2.2 =
      [MailTask.resetMail "alice@x.com" "alice"
        (TokenStr.signed
          { sub := some "alice@x.com", password := some "h:newpw", iat := none
            exp := some 4600 } "secret" "HS256")]
    ∧ (4600 : Nat) ≠ 1000 + 7 * 24 * 60 * 60 := by
  exact ⟨rfl, by decide⟩

/-- C3 amended: for every accepted reset request (user exists and is
confirmed) the queued reset token has sub = the user's email and carries the
hash of the new password as the password claim, nothing is written to the
persisted store, and the token's expiry is issuance time plus the default
access-token ttl (settings.JWT_EXPIRATION_SECONDS), not 7 days. -/
theorem reset_token_contents (ctx : Ctx) (db : DB) (email pwd : String)
    (u : UserRec) :
    get_user_by_email db email = some u → u.confirmed = true →
    reset_password_request ctx db email pwd =
      (Except.ok "Check your email for confirmation", db,
        [MailTask.resetMail email u.username
          (TokenStr.signed
            { sub := some u.email, password := some (ctx.hashFn pwd), iat := none
              exp := some (ctx.now + ctx.settings.JWT_EXPIRATION_SECONDS) }
            ctx.settings.JWT_SECRET ctx.settings.JWT_ALGORITHM)]) := by
  intro hu hc
  unfold reset_password_request
  rw [hu]
  simp [hc, create_access_token, jwtEncode]

/-- Witness for the amended C3 at the confirmed user. -/
theorem reset_token_contents_witness :
    reset_password_request ctxW dbW "alice@x.com" "newpw" =
      (Except.ok "Check your email for confirmation", dbW,
        [MailTask.resetMail "alice@x.com" "alice"
          (TokenStr.signed
            { sub := some "alice@x.com", password := some "h:newpw", iat := none
              exp := some 4600 } "secret" "HS256")]) :=
  reset_token_contents ctxW dbW "alice@x.com" "newpw" aliceW (by decide) (by decide)

/-- A token correctly signed with the configured secret and algorithm,
unexpired at the witness clock, whose payload carries no sub and no password
claim. -/
def tokNoClaimsW : TokenStr :=
  TokenStr.signed { sub := none, password := none, iat := none, exp := some 5000 }
    "secret" "HS256"

/-- C4: a well-signed, unexpired token whose payload lacks the claim its
consumer expects does not fail with the InvalidToken rejection — the dict
access inside the try block raises a KeyError, which is not a JWTError and
so escapes every extractor unhandled (an HTTP 500 at the route), for subject
extraction, reset-password extraction and current-user resolution alike. -/
theorem missing_claim_escapes_keyerror :
    get_email_from_token ctxW tokNoClaimsW = Except.error (PyErr.keyError "sub")
    ∧ get_password_from_token ctxW tokNoClaimsW =
        Except.error (PyErr.keyError "password")
    ∧ get_current_user ctxW dbW tokNoClaimsW = Except.error (PyErr.keyError "sub") :=
  ⟨rfl, rfl, rfl⟩

/-- A token signed with a secret other than the configured one. -/
def tokWrongSecretW : TokenStr :=
  TokenStr.signed
    { sub := some "alice@x.com", password := some "h:zz", iat := none
      exp := some 5000 } "other" "HS256"

/-- A correctly signed token whose exp (10) lies before the witness clock
(1000). -/
def tokExpiredW : TokenStr :=
  TokenStr.signed
    { sub := some "alice@x.com", password := some "h:zz", iat := none
      exp := some 10 } "secret" "HS256"

/-- C6: email confirmation and reset confirmation presented with an invalid
token — structurally malformed, signed with the wrong secret, or expired —
fail with HTTPException 422 "Invalid token for email verification" raised
inside get_email_from_token, not with the 400 BadRequest that the claim and
the handlers' own docstrings state. -/
theorem invalid_token_rejected_with_422 :
    (confirmed_email ctxW dbW (TokenStr.malformed "garbage")).1 =
        Except.error (PyErr.http 422 "Invalid token for email verification")
    ∧ (confirmed_email ctxW dbW tokWrongSecretW).1 =
        Except.error (PyErr.http 422 "Invalid token for email verification")
    ∧ (confirmed_email ctxW dbW tokExpiredW).1 =
        Except.error (PyErr.http 422 "Invalid token for email verification")
    ∧ (confirm_reset_password ctxW dbW (TokenStr.malformed "garbage")).1 =
        Except.error (PyErr.http 422 "Invalid token for email verification")
    ∧ (confirm_reset_password ctxW dbW tokWrongSecretW).1 =
        Except.error (PyErr.http 422 "Invalid token for email verification")
    ∧ (confirm_reset_password ctxW dbW tokExpiredW).1 =
        Except.error (PyErr.http 422 "Invalid token for email verification")
    ∧ (422 : Nat) ≠ 400 :=
  ⟨rfl, rfl, rfl, rfl, rfl, rfl, by decide⟩

/-- C5 counterexample: two resend-confirmation runs that differ only in
whether an account with the submitted email exists (an empty store versus
the store holding the confirmed user) produce different responses — the
generic "Check your email for confirmation" against "Your email is already
confirmed" — so the response is not always the same generic success message
and account existence is distinguishable. -/
theorem existence_leak_counterexample :
    (request_email ctxW [] "alice@x.com").1 =
        Except.ok "Check your email for confirmation"
    ∧ (request_email ctxW dbW "alice@x.com").1 =
        Except.ok "Your email is already confirmed"
    ∧ (request_email ctxW [] "alice@x.com").1 ≠
        (request_email ctxW dbW "alice@x.com").1 :=
  ⟨rfl, rfl, fun h => absurd (Except.ok.inj h) (by decide)⟩

/-- C5 amended: resend-confirmation returns the identical generic message
whether the account is nonexistent or exists unconfirmed, and reset-request
returns the identical generic message whether the account is nonexistent or
exists confirmed; but an already-confirmed account is distinguishable at
resend-confirmation (distinct success message) and an unconfirmed account is
distinguishable at reset-request (400 error), so indistinguishability holds
only against those matching account states, not regardless of state. -/
theorem existence_leak_boundary (ctx : Ctx) (db : DB) (email pwd : String) :
    ((∀ u, get_user_by_email db email = some u → u.confirmed = false) →
      (request_email ctx db email).1 = Except.ok "Check your email for confirmation")
    ∧ ((∀ u, get_user_by_email db email = some u → u.confirmed = true) →
      (reset_password_request ctx db email pwd).1 =
        Except.ok "Check your email for confirmation")
    ∧ (∀ u, get_user_by_email db email = some u → u.confirmed = true →
      (request_email ctx db email).1 = Except.ok "Your email is already confirmed")
    ∧ (∀ u, get_user_by_email db email = some u → u.confirmed = false →
      (reset_password_request ctx db email pwd).1 =
        Except.error (PyErr.http 400 "Your email is not confirmed")) := by
  refine ⟨?_, ?_, ?_, ?_⟩
  · intro h
    unfold request_email
    cases hu : get_user_by_email db email with
    | none => rfl
    | some u => simp [h u hu]
  · intro h
    unfold reset_password_request
    cases hu : get_user_by_email db email with
    | none => rfl
    | some u => simp [h u hu]
  · intro u hu hc
    unfold request_email
    rw [hu]
    simp [hc]
  · intro u hu hc
    unfold reset_password_request
    rw [hu]
    simp [hc]

/-- Witness for the amended C5: against the empty store both flows return
the generic message. -/
theorem existence_leak_boundary_witness :
    (request_email ctxW [] "nobody@x.com").1 =
        Except.ok "Check your email for confirmation"
    ∧ (reset_password_request ctxW [] "nobody@x.com" "pw").1 =
        Except.ok "Check your email for confirmation" :=
  ⟨(existence_leak_boundary ctxW [] "nobody@x.com" "pw").1 (by intro u hu; cases hu),
    (existence_leak_boundary ctxW [] "nobody@x.com" "pw").2.1
      (by intro u hu; cases hu)⟩

/-- Unfolding equation: when subject extraction fails, confirm_reset_password
propagates the error and returns the store unchanged. -/
theorem confirm_reset_password_eq_err1 (ctx : Ctx) (db : DB) (t : TokenStr)
    (e : PyErr) (h : get_email_from_token ctx t = Except.error e) :
    confirm_reset_password ctx db t = (Except.error e, db) := by
  unfold confirm_reset_password
  rw [h]

/-- Unfolding equation: when password extraction fails, confirm_reset_password
propagates the error and returns the store unchanged. -/
theorem confirm_reset_password_eq_err2 (ctx : Ctx) (db : DB) (t : TokenStr)
    (email : String) (e : PyErr) (h1 : get_email_from_token ctx t = Except.ok email)
    (h2 : get_password_from_token ctx t = Except.error e) :
    confirm_reset_password ctx db t = (Except.error e, db) := by
  unfold confirm_reset_password
  rw [h1, h2]

/-- Unfolding equation: when both extractions succeed, confirm_reset_password
reduces to the falsy-value check, the user lookup and the hash commit. -/
theorem confirm_reset_password_eq_ok (ctx : Ctx) (db : DB) (t : TokenStr)
    (email pw : String) (h1 : get_email_from_token ctx t = Except.ok email)
    (h2 : get_password_from_token ctx t = Except.ok pw) :
    confirm_reset_password ctx db t =
      if email = "" ∨ pw = "" then
        (Except.error (PyErr.http 400 "Invalid or expired token"), db)
      else
        match get_user_by_email db email with
        | none => (Except.error (PyErr.http 404 "User with this email not found"), db)
        | some user =>
          (Except.ok "Password successfully changed",
            UserRepository.set_password_hash db user.id pw) := by
  unfold confirm_reset_password
  rw [h1, h2]

/-- C7: confirm_reset_password mutates no state before the token fully
validates — a token that fails to decode (tampered signature, altered
payload, malformed, expired) yields an error and the unchanged store, and
more generally every error outcome of the handler leaves the stored password
hashes untouched. -/
theorem reset_confirm_no_mutation_on_error (ctx : Ctx) (db : DB) (t : TokenStr) :
    (∀ err, jwtDecode t ctx.settings.JWT_SECRET ctx.settings.JWT_ALGORITHM ctx.now =
        Except.error err →
      (∃ e, (confirm_reset_password ctx db t).1 = Except.error e)
      ∧ (confirm_reset_password ctx db t).2 = db)
    ∧ (∀ e, (confirm_reset_password ctx db t).1 = Except.error e →
      (confirm_reset_password ctx db t).2 = db) := by
  constructor
  · intro err herr
    have h1 : get_email_from_token ctx t =
        Except.error (PyErr.http 422 "Invalid token for email verification") := by
      unfold get_email_from_token
      rw [herr]
    rw [confirm_reset_password_eq_err1 ctx db t _ h1]
    exact ⟨⟨_, rfl⟩, rfl⟩
  · intro e he
    cases h1 : get_email_from_token ctx t with
    | error e1 => rw [confirm_reset_password_eq_err1 ctx db t e1 h1]
    | ok email =>
      cases h2 : get_password_from_token ctx t with
      | error e2 => rw [confirm_reset_password_eq_err2 ctx db t email e2 h1 h2]
      | ok pw =>
        rw [confirm_reset_password_eq_ok ctx db t email pw h1 h2] at he ⊢
        by_cases h3 : email = "" ∨ pw = ""
        · rw [if_pos h3]
        · rw [if_neg h3] at he ⊢
          cases h4 : get_user_by_email db email with
          | none => rfl
          | some u =>
            rw [h4] at he
            simp at he

/-- Witness for C7 at a structurally malformed token: the handler errors and
the store is unchanged. -/
theorem reset_confirm_no_mutation_on_error_witness :
    (∃ e, (confirm_reset_password ctxW dbW (TokenStr.malformed "garbage")).1 =
        Except.error e)
    ∧ (confirm_reset_password ctxW dbW (TokenStr.malformed "garbage")).2 = dbW :=
  (reset_confirm_no_mutation_on_error ctxW dbW (TokenStr.malformed "garbage")).1
    JWTError.malformedToken rfl

/-- Unfolding equation: when subject extraction fails, confirmed_email
propagates the error and returns the store unchanged. -/
theorem confirmed_email_eq_err (ctx : Ctx) (db : DB) (t : TokenStr) (e : PyErr)
    (h : get_email_from_token ctx t = Except.error e) :
    confirmed_email ctx db t = (Except.error e, db) := by
  unfold confirmed_email
  rw [h]

/-- Unfolding equation: when subject extraction succeeds, confirmed_email
reduces to the user lookup and the confirmed-flag branch. -/
theorem confirmed_email_eq_ok (ctx : Ctx) (db : DB) (t : TokenStr) (email : String)
    (h : get_email_from_token ctx t = Except.ok email) :
    confirmed_email ctx db t =
      match get_user_by_email db email with
      | none => (Except.error (PyErr.http 400 "Confirmation error"), db)
      | some user =>
        if user.confirmed then (Except.ok "Your email is already confirmed", db)
        else (Except.ok "Email confirmed", UserRepository.set_confirmed db email) := by
  unfold confirmed_email
  rw [h]

/-- Setting the confirmed flag through the store changes no other column, so
looking the same email up afterwards returns the same row with the flag
set. -/
theorem get_user_by_email_set_confirmed (db : DB) (email : String) :
    get_user_by_email (UserRepository.set_confirmed db email) email =
      Option.map (fun u => { u with confirmed := true })
        (get_user_by_email db email) := by
  unfold get_user_by_email UserRepository.set_confirmed
  rw [List.find?_map]
  have hcomp : ((fun u : UserRec => u.email == email) ∘
      (fun u : UserRec =>
        if u.email == email then { u with confirmed := true } else u)) =
      fun u : UserRec => u.email == email := by
    funext v
    by_cases hv : (v.email == email) = true
    · simp [Function.comp, hv]
    · simp [Function.comp, hv]
  rw [hcomp]
  cases hf : List.find? (fun u : UserRec => u.email == email) db with
  | none => rfl
  | some u =>
    have hp : (u.email == email) = true :=
      List.find?_some (p := fun u : UserRec => u.email == email) hf
    have he : u.email = email := by simpa using hp
    simp [he]

/-- C8: presenting a confirmation token whose email resolves to an
already-confirmed user returns the no-op success message and leaves the
store unchanged; and after any successful confirmation call, a second call
with the same token succeeds with the no-op message and changes nothing. -/
theorem confirmed_email_idempotent (ctx : Ctx) (db : DB) (t : TokenStr) :
    (∀ email user, get_email_from_token ctx t = Except.ok email →
      get_user_by_email db email = some user → user.confirmed = true →
      confirmed_email ctx db t = (Except.ok "Your email is already confirmed", db))
    ∧ (∀ m db2, confirmed_email ctx db t = (Except.ok m, db2) →
      confirmed_email ctx db2 t =
        (Except.ok "Your email is already confirmed", db2)) := by
  constructor
  · intro email user h1 h2 h3
    rw [confirmed_email_eq_ok ctx db t email h1, h2]
    simp [h3]
  · intro m db2 h
    cases h1 : get_email_from_token ctx t with
    | error e =>
      rw [confirmed_email_eq_err ctx db t e h1] at h
      simp at h
    | ok email =>
      rw [confirmed_email_eq_ok ctx db t email h1] at h
      rw [confirmed_email_eq_ok ctx db2 t email h1]
      cases h2 : get_user_by_email db email with
      | none =>
        rw [h2] at h
        simp at h
      | some user =>
        rw [h2] at h
        by_cases h3 : user.confirmed = true
        · simp only [h3, if_true, Prod.mk.injEq, Except.ok.injEq] at h
          obtain ⟨hm, hdb⟩ := h
          subst hdb
          rw [h2]
          simp [h3]
        · simp [h3] at h
          obtain ⟨hm, hdb⟩ := h
          subst hdb
          rw [get_user_by_email_set_confirmed, h2]
          simp

/-- A valid confirmation token for the confirmed user, used by the C8
witness. -/
def tokAliceW : TokenStr :=
  TokenStr.signed
    { sub := some "alice@x.com", password := none, iat := none, exp := some 5000 }
    "secret" "HS256"

/-- Witness for C8: confirming the already-confirmed user is a no-op
success. -/
theorem confirmed_email_idempotent_witness :
    confirmed_email ctxW dbW tokAliceW =
      (Except.ok "Your email is already confirmed", dbW) :=
  (confirmed_email_idempotent ctxW dbW tokAliceW).1 "alice@x.com" aliceW
    rfl (by decide) rfl

/-- C9 counterexample: verifying, before its expiry, the access token issued
by create_access_token from the payload containing only sub = "alice"
returns that payload plus the exp claim, but with no issued-at claim (iat is
absent from the decoded payload), refuting the claim that verification
returns the original claims plus both the issued-at and exp claims. -/
theorem roundtrip_missing_iat_counterexample :
    jwtDecode
        (create_access_token ctxW
          { sub := some "alice", password := none, iat := none, exp := none } none)
        "secret" "HS256" 1000 =
      Except.ok
        { sub := some "alice", password := none, iat := none, exp := some 4600 } := by
  rfl

/-- C9 amended: verifying an issued token before its expiry instant returns
the original claims plus the exp claim — with iat added as well only for
tokens issued by create_email_token; access tokens issued by
create_access_token (explicit nonzero ttl or the configured default) carry
no issued-at claim, so the decoded payload is the original plus exp only. -/
theorem token_roundtrip (ctx : Ctx) (data : Claims) (d now2 : Nat) :
    (d ≠ 0 → now2 ≤ ctx.now + d →
      jwtDecode (create_access_token ctx data (some d)) ctx.settings.JWT_SECRET
          ctx.settings.JWT_ALGORITHM now2 =
        Except.ok { data with exp := some (ctx.now + d) })
    ∧ (now2 ≤ ctx.now + ctx.settings.JWT_EXPIRATION_SECONDS →
      jwtDecode (create_access_token ctx data none) ctx.settings.JWT_SECRET
          ctx.settings.JWT_ALGORITHM now2 =
        Except.ok
          { data with exp := some (ctx.now + ctx.settings.JWT_EXPIRATION_SECONDS) })
    ∧ (now2 ≤ ctx.now + 7 * 24 * 60 * 60 →
      jwtDecode (create_email_token ctx data) ctx.settings.JWT_SECRET
          ctx.settings.JWT_ALGORITHM now2 =
        Except.ok
          { data with iat := some ctx.now, exp := some (ctx.now + 7 * 24 * 60 * 60) }) := by
  refine ⟨?_, ?_, ?_⟩
  · intro hd hle
    unfold create_access_token jwtEncode jwtDecode
    simp [hd, Nat.not_lt.mpr hle]
  · intro hle
    unfold create_access_token jwtEncode jwtDecode
    simp [Nat.not_lt.mpr hle]
  · intro hle
    unfold create_email_token jwtEncode jwtDecode
    simp [Nat.not_lt.mpr hle]

/-- Witness for the amended C9: the default-ttl access token issued at 1000
decodes at 1000 to the original payload plus exp = 4600. -/
theorem token_roundtrip_witness :
    jwtDecode
        (create_access_token ctxW
          { sub := some "bob", password := none, iat := none, exp := none } none)
        ctxW.settings.JWT_SECRET ctxW.settings.JWT_ALGORITHM 1000 =
      Except.ok
        { sub := some "bob", password := none, iat := none
          exp := some (ctxW.now + ctxW.settings.JWT_EXPIRATION_SECONDS) } :=
  (token_roundtrip ctxW
    { sub := some "bob", password := none, iat := none, exp := none } 1 1000).2.1
    (by decide)
